import Mathlib

/-!
Verification of the natural-language specification of
`homeassistant/components/homekit/util.py` against a shallow Lean embedding
of that file.

The embedding models Python configuration values by the inductive type
`PyVal`, validation failures (voluptuous `Invalid`, Python `TypeError` /
`ValueError`) by the error type `PErr`, and each function of the source file
by a Lean function of the same name.  Constants and small helpers imported
by the file from elsewhere in the repository (`homeassistant.const`,
`homeassistant.helpers.config_validation`, `homeassistant.util.temperature`,
`.const`) are not part of the staged sources; each such definition carries a
doc comment starting `Modelled from the spec:`.
-/

namespace HomekitUtil

/-- A Python value as it can appear in a configuration mapping:
`None`, booleans, integers, strings, lists and string-keyed dictionaries
(configuration dictionaries in the source are keyed by strings). -/
inductive PyVal where
  | none
  | bool (b : Bool)
  | int (n : ℤ)
  | str (s : String)
  | listv (xs : List PyVal)
  | dictv (kvs : List (String × PyVal))

/-- A Python dictionary with string keys, in insertion order. -/
abbrev PyDict := List (String × PyVal)

/-- A raised Python exception: a voluptuous validation error (`vol.Invalid`),
a `TypeError`, or a `ValueError`. -/
inductive PErr where
  | invalid (msg : String)
  | typeError (msg : String)
  | valueError (msg : String)

/-- Whether an `Except` computation finished without raising. -/
def isOkE {α : Type} : Except PErr α → Bool
  | .ok _ => true
  | .error _ => false

/-! ### Constants

Modelled from the spec: the key names and enumeration values imported from
`homeassistant.const` and the integration's `.const` module, which are not
among the staged sources.  The spec fixes the feature enumeration (power
on/off, play/pause, play/stop, volume-mute), the switch sub-type enumeration
and the per-domain fields (display name, security code, feature list,
device sub-type). -/

def CONF_NAME : String := "name"

def ATTR_CODE : String := "code"

def CONF_TYPE : String := "type"

def CONF_FEATURE : String := "feature"

def CONF_FEATURE_LIST : String := "feature_list"

def ATTR_SUPPORTED_FEATURES : String := "supported_features"

def FEATURE_ON_OFF : String := "on_off"

def FEATURE_PLAY_PAUSE : String := "play_pause"

def FEATURE_PLAY_STOP : String := "play_stop"

def FEATURE_TOGGLE_MUTE : String := "toggle_mute"

def TYPE_FAUCET : String := "faucet"

def TYPE_OUTLET : String := "outlet"

def TYPE_SHOWER : String := "shower"

def TYPE_SPRINKLER : String := "sprinkler"

def TYPE_SWITCH : String := "switch"

def TYPE_VALVE : String := "valve"

/-- Modelled from the spec: the capability bitmask flags of the media-player
integration (`SUPPORT_*`); the spec treats the bitmask as an opaque integer
whose flags are tested in fixed pairs, so only their being distinct powers
of two matters.  The numeric values are the integration's. -/
def SUPPORT_PAUSE : ℕ := 1

def SUPPORT_VOLUME_MUTE : ℕ := 8

def SUPPORT_TURN_ON : ℕ := 128

def SUPPORT_TURN_OFF : ℕ := 256

def SUPPORT_STOP : ℕ := 4096

def SUPPORT_PLAY : ℕ := 16384

/-! ### String helpers -/

/-- ASCII lower-casing of one character, as Python `str.lower` does for the
ASCII identifiers at hand. -/
def lowerChar (c : Char) : Char :=
  if 'A' ≤ c ∧ c ≤ 'Z' then Char.ofNat (c.toNat + 32) else c

/-- Python `str.lower` on the ASCII strings used for entity identifiers. -/
def pyLower (s : String) : String := String.mk (s.data.map lowerChar)

/-- Split a character list on `.` (Python `str.split` with separator `.`). -/
def splitDotAux : List Char → List Char → List (List Char)
  | [], acc => [acc.reverse]
  | c :: rest, acc =>
      if c = '.' then acc.reverse :: splitDotAux rest []
      else splitDotAux rest (c :: acc)

/-- Python `s.split` on `.`: always a non-empty list of parts. -/
def splitDot (s : String) : List String := (splitDotAux s.data []).map String.mk

/-! ### Host-framework validators

The helpers `cv.string`, `cv.ensure_list`, `cv.entity_id` and
`homeassistant.core.split_entity_id` live elsewhere in the repository and
are not among the staged sources. -/

/-- Modelled from the spec: the string coercion used by the configuration
validators (`cv.string`).  Null and collection values are rejected with a
validation error; scalar values are coerced to their canonical Python
string form. -/
def coerceStr : PyVal → Option String
  | .str s => some s
  | .int n => some (toString n)
  | .bool b => some (if b then "True" else "False")
  | _ => Option.none

/-- `cv.string` as a validator: the coerced string, or a validation error. -/
def cvString (v : PyVal) : Except PErr PyVal :=
  match coerceStr v with
  | some s => .ok (.str s)
  | Option.none => .error (.invalid "value should be a string")

/-- Modelled from the spec: the list coercion helper (`cv.ensure_list`):
a null value becomes the empty list, a list is kept as is, and any other
value is wrapped in a singleton list.  It never fails. -/
def ensure_list : PyVal → List PyVal
  | .none => []
  | .listv xs => xs
  | v => [v]

/-- Whether a character may appear in the parts of an entity identifier
(lower-case letter, digit or underscore). -/
def slugCharOK (c : Char) : Bool :=
  c.isDigit || ('a' ≤ c && c ≤ 'z') || c = '_'

/-- A non-empty run of identifier characters. -/
def validSlugB (s : String) : Bool :=
  !s.isEmpty && s.data.all slugCharOK

/-- Modelled from the spec: a well-formed entity identifier is a
domain-prefixed identifier such as `switch.kitchen` — a domain part and an
object part, both non-empty runs of lower-case letters, digits and
underscores, joined by a single dot. -/
def validEntityIdB (s : String) : Bool :=
  match splitDot s with
  | [d, o] => validSlugB d && validSlugB o
  | _ => false

/-- Modelled from the spec: `cv.entity_id` lower-cases the given identifier
and fails with a validation error unless the result is a well-formed
entity identifier. -/
def cvEntityId (s : String) : Except PErr String :=
  if validEntityIdB (pyLower s) then .ok (pyLower s)
  else .error (.invalid "invalid entity id")

/-- Modelled from the spec: the domain is the prefix of an entity identifier
before the first dot (`split_entity_id`). -/
def split_entity_id_domain (s : String) : String := (splitDot s).headD ""

/-! ### The voluptuous mapping schemas of the source file

A voluptuous mapping schema (with the default `PREVENT_EXTRA` policy, as in
the source) validates a dictionary by checking every given entry against the
declared keys — an undeclared key is a validation error — after first
inserting the declared default values for missing optional keys; defaults
are validated like given values.  Missing required keys are a validation
error.  `runSchema` embeds exactly this for the four schemas of the file,
each given by its key table, its defaults and its required keys. -/

/-- Validate each entry of a dictionary against the key table: an entry
whose key is not in the table is a validation error (`extra keys not
allowed`), otherwise its value is replaced by the validated value. -/
def validateEntries (allowed : String → Option (PyVal → Except PErr PyVal)) :
    PyDict → Except PErr PyDict
  | [] => .ok []
  | kv :: rest =>
      match allowed kv.1 with
      | some f =>
          match f kv.2 with
          | .ok v' => (validateEntries allowed rest).map (fun r => (kv.1, v') :: r)
          | .error e => .error e
      | Option.none => .error (.invalid "extra keys not allowed")

/-- Append the default entries whose keys the dictionary does not provide. -/
def fillDefaults (kvs : PyDict) (defaults : PyDict) : PyDict :=
  kvs ++ defaults.filter (fun d => (List.lookup d.1 kvs).isNone)

/-- A voluptuous mapping schema: non-dictionaries are rejected, defaults are
filled in, required keys checked, and every entry validated. -/
def runSchema (allowed : String → Option (PyVal → Except PErr PyVal))
    (defaults : PyDict) (required : List String) : PyVal → Except PErr PyVal
  | .dictv kvs =>
      let filled := fillDefaults kvs defaults
      if required.all (fun r => (List.lookup r filled).isSome) then
        (validateEntries allowed filled).map PyVal.dictv
      else .error (.invalid "required key not provided")
  | _ => .error (.invalid "expected a dictionary")

/-- `vol.All(cv.string, vol.In(names))`: coerce to a string and require it to
be one of the listed names. -/
def inList (names : List String) (v : PyVal) : Except PErr PyVal :=
  match coerceStr v with
  | some s =>
      if names.contains s then .ok (.str s)
      else .error (.invalid "value is not in the allowed list")
  | Option.none => .error (.invalid "value should be a string")

/-- `vol.Any(None, cv.string)`: `None` passes through, anything else is
coerced to a string. -/
def anyNoneString (v : PyVal) : Except PErr PyVal :=
  match v with
  | .none => .ok .none
  | v => cvString v

/-- The key table of `BASIC_INFO_SCHEMA`: an optional display name. -/
def basicAllowed (k : String) : Option (PyVal → Except PErr PyVal) :=
  if k = CONF_NAME then some cvString else Option.none

/-- `BASIC_INFO_SCHEMA`. -/
def BASIC_INFO_SCHEMA : PyVal → Except PErr PyVal :=
  runSchema basicAllowed [] []

/-- The key table of `FEATURE_SCHEMA`: the display name, plus the feature
list coerced by `cv.ensure_list`. -/
def featureAllowed (k : String) : Option (PyVal → Except PErr PyVal) :=
  if k = CONF_NAME then some cvString
  else if k = CONF_FEATURE_LIST then some (fun v => .ok (.listv (ensure_list v)))
  else Option.none

/-- `FEATURE_SCHEMA`: the feature list is optional with default `None`. -/
def FEATURE_SCHEMA : PyVal → Except PErr PyVal :=
  runSchema featureAllowed [(CONF_FEATURE_LIST, PyVal.none)] []

/-- The key table of `CODE_SCHEMA`: the display name, plus the security code
(`None` or a string). -/
def codeAllowed (k : String) : Option (PyVal → Except PErr PyVal) :=
  if k = CONF_NAME then some cvString
  else if k = ATTR_CODE then some anyNoneString
  else Option.none

/-- `CODE_SCHEMA`: the code is optional with default `None`. -/
def CODE_SCHEMA : PyVal → Except PErr PyVal :=
  runSchema codeAllowed [(ATTR_CODE, PyVal.none)] []

/-- The fixed media-player feature-name enumeration of the source. -/
def mediaFeatureNames : List String :=
  [FEATURE_ON_OFF, FEATURE_PLAY_PAUSE, FEATURE_PLAY_STOP, FEATURE_TOGGLE_MUTE]

/-- The key table of `MEDIA_PLAYER_SCHEMA`: only the required feature name,
which must be one of the fixed enumeration. -/
def mediaAllowed (k : String) : Option (PyVal → Except PErr PyVal) :=
  if k = CONF_FEATURE then some (inList mediaFeatureNames) else Option.none

/-- `MEDIA_PLAYER_SCHEMA`: the feature name is required. -/
def MEDIA_PLAYER_SCHEMA : PyVal → Except PErr PyVal :=
  runSchema mediaAllowed [] [CONF_FEATURE]

/-- The fixed switch sub-type enumeration of the source. -/
def switchTypes : List String :=
  [TYPE_FAUCET, TYPE_OUTLET, TYPE_SHOWER, TYPE_SPRINKLER, TYPE_SWITCH, TYPE_VALVE]

/-- The key table of `SWITCH_TYPE_SCHEMA`: the display name, plus the
sub-type, which must be one of the fixed enumeration. -/
def switchAllowed (k : String) : Option (PyVal → Except PErr PyVal) :=
  if k = CONF_NAME then some cvString
  else if k = CONF_TYPE then some (inList switchTypes)
  else Option.none

/-- `SWITCH_TYPE_SCHEMA`: the sub-type is optional with the generic switch
type as default. -/
def SWITCH_TYPE_SCHEMA : PyVal → Except PErr PyVal :=
  runSchema switchAllowed [(CONF_TYPE, PyVal.str TYPE_SWITCH)] []

/-! ### `validate_entity_config` -/

/-- Remove every entry with the given key (Python `dict.pop` on the unique
occurrence). -/
def popKey (kvs : PyDict) (k : String) : PyDict :=
  kvs.filter (fun kv => kv.1 != k)

/-- `entities[entity] = config`: replace the value of an existing key in
place, else append the new entry. -/
def dictSet (kvs : PyDict) (k : String) (v : PyVal) : PyDict :=
  if (List.lookup k kvs).isSome then
    kvs.map (fun kv => if kv.1 = k then (k, v) else kv)
  else kvs ++ [(k, v)]

/-- Dictionary lookup defaulting to `None`. -/
def lookupOrNone (kvs : PyDict) (k : String) : PyVal :=
  (List.lookup k kvs).getD PyVal.none

/-- The `for feature in config[CONF_FEATURE_LIST]` loop of the source:
validate each entry against `MEDIA_PLAYER_SCHEMA`, pop the feature name and
reject a feature name already collected. -/
def processFeatures : List PyVal → PyDict → Except PErr PyDict
  | [], acc => .ok acc
  | f :: rest, acc =>
      match MEDIA_PLAYER_SCHEMA f with
      | .error e => .error e
      | .ok params =>
          match params with
          | .dictv pkvs =>
              match List.lookup CONF_FEATURE pkvs with
              | some (.str key) =>
                  if (List.lookup key acc).isSome then
                    .error (.invalid "A feature can be added only once")
                  else
                    processFeatures rest (acc ++ [(key, .dictv (popKey pkvs CONF_FEATURE))])
              | _ => .error (.typeError "feature key missing after validation")
          | _ => .error (.typeError "schema result is not a dictionary")

/-- The per-domain dispatch of `validate_entity_config`: alarm panels and
locks use `CODE_SCHEMA`, media players use `FEATURE_SCHEMA` followed by the
feature loop, switches use `SWITCH_TYPE_SCHEMA`, and every other domain the
name-only schema.  The `typeError` branches mirror the source's unguarded
iteration and indexing after `FEATURE_SCHEMA`. -/
def validateDomainConfig (domain : String) (config : PyVal) : Except PErr PyVal :=
  if domain = "alarm_control_panel" ∨ domain = "lock" then CODE_SCHEMA config
  else if domain = "media_player" then
    match FEATURE_SCHEMA config with
    | .error e => .error e
    | .ok (.dictv ckvs) =>
        match lookupOrNone ckvs CONF_FEATURE_LIST with
        | .listv fs =>
            match processFeatures fs [] with
            | .ok fl => .ok (.dictv (dictSet ckvs CONF_FEATURE_LIST (.dictv fl)))
            | .error e => .error e
        | _ => .error (.typeError "object is not iterable")
    | .ok _ => .error (.typeError "schema result is not a dictionary")
  else if domain = "switch" then SWITCH_TYPE_SCHEMA config
  else BASIC_INFO_SCHEMA config

/-- One iteration of the entity loop: validate the identifier, require the
configuration to be a dictionary, and dispatch on the domain. -/
def processEntry (eid : String) (config : PyVal) : Except PErr (String × PyVal) :=
  match cvEntityId eid with
  | .error e => .error e
  | .ok entity =>
      match config with
      | .dictv _ =>
          (validateDomainConfig (split_entity_id_domain entity) config).map
            (fun c => (entity, c))
      | _ => .error (.invalid "The configuration must be a dictionary")

/-- The entity loop of `validate_entity_config`, accumulating the validated
`entities` dictionary. -/
def processEntities : List (String × PyVal) → PyDict → Except PErr PyDict
  | [], acc => .ok acc
  | (eid, config) :: rest, acc =>
      match processEntry eid config with
      | .ok ec => processEntities rest (dictSet acc ec.1 ec.2)
      | .error e => .error e

/-- `validate_entity_config` of the source file. -/
def validate_entity_config : PyVal → Except PErr PyVal
  | .dictv kvs => (processEntities kvs []).map PyVal.dictv
  | _ => .error (.invalid "expected a dictionary")

/-! ### Specification-side well-formedness predicates

These predicates restate, in the spec's vocabulary, when a configuration
mapping is free of problems; they are compared with the source-derived
validator by the theorems below. -/

/-- A value the string coercion accepts (a scalar). -/
def stringableB (v : PyVal) : Bool := (coerceStr v).isSome

/-- Whether a value is Python `None`. -/
def isNoneB : PyVal → Bool
  | .none => true
  | _ => false

/-- Whether a value coerces to a string of the given enumeration. -/
def coercesInto (names : List String) (v : PyVal) : Bool :=
  match coerceStr v with
  | some s => names.contains s
  | Option.none => false

/-- A legal entry of a name-only record: the display-name field with a
stringable value. -/
def goodBasicKV (kv : String × PyVal) : Bool :=
  kv.1 == CONF_NAME && stringableB kv.2

/-- A legal entry of an alarm/lock record: the display name, or the security
code (null or stringable). -/
def goodCodeKV (kv : String × PyVal) : Bool :=
  goodBasicKV kv || (kv.1 == ATTR_CODE && (isNoneB kv.2 || stringableB kv.2))

/-- A legal entry of a switch record: the display name, or a sub-type from
the fixed enumeration. -/
def goodSwitchKV (kv : String × PyVal) : Bool :=
  goodBasicKV kv || (kv.1 == CONF_TYPE && coercesInto switchTypes kv.2)

/-- A legal entry of a media-player record: the display name, or the feature
list (whose entries are checked separately). -/
def goodMediaKV (kv : String × PyVal) : Bool :=
  goodBasicKV kv || kv.1 == CONF_FEATURE_LIST

/-- A legal feature-list entry: a mapping whose every key is the feature
field, that field being present and naming one of the four features. -/
def goodFeatureEntry (f : PyVal) : Bool :=
  match f with
  | .dictv pkvs =>
      pkvs.all (fun kv => kv.1 == CONF_FEATURE && coercesInto mediaFeatureNames kv.2)
        && (List.lookup CONF_FEATURE pkvs).isSome
  | _ => false

/-- The feature name a feature-list entry configures, when readable. -/
def entryFeatureName (f : PyVal) : Option String :=
  match f with
  | .dictv pkvs => (List.lookup CONF_FEATURE pkvs).bind coerceStr
  | _ => Option.none

/-- The feature names configured by a raw feature-list value, in order. -/
def featureNamesOf (fs : List PyVal) : List String :=
  fs.filterMap entryFeatureName

/-- The raw feature-list value of a media-player record (missing means the
null default). -/
def rawFeatureList (ckvs : PyDict) : List PyVal :=
  ensure_list (lookupOrNone ckvs CONF_FEATURE_LIST)

/-- A problem-free record for the given domain, in the spec's terms: every
field is a recognized field with an acceptable value, and for media players
every feature entry is legal with no feature name repeated. -/
def goodDomainCfg (domain : String) (ckvs : PyDict) : Prop :=
  if domain = "alarm_control_panel" ∨ domain = "lock" then
    ∀ kv ∈ ckvs, goodCodeKV kv = true
  else if domain = "media_player" then
    (∀ kv ∈ ckvs, goodMediaKV kv = true) ∧
      (∀ f ∈ rawFeatureList ckvs, goodFeatureEntry f = true) ∧
      (featureNamesOf (rawFeatureList ckvs)).Nodup
  else if domain = "switch" then
    ∀ kv ∈ ckvs, goodSwitchKV kv = true
  else
    ∀ kv ∈ ckvs, goodBasicKV kv = true

/-- A problem-free per-entity binding: a well-formed identifier and a
mapping record that is problem-free for the identifier's domain. -/
def goodEntry (e : String × PyVal) : Prop :=
  validEntityIdB (pyLower e.1) = true ∧
    ∃ ckvs, e.2 = PyVal.dictv ckvs ∧
      goodDomainCfg (split_entity_id_domain (pyLower e.1)) ckvs

/-- A problem-free input to the validator: a mapping whose every binding is
problem-free. -/
def goodConfigInput (v : PyVal) : Prop :=
  ∃ kvs, v = PyVal.dictv kvs ∧ ∀ e ∈ kvs, goodEntry e

instance (domain : String) (ckvs : PyDict) : Decidable (goodDomainCfg domain ckvs) := by
  unfold goodDomainCfg
  infer_instance

instance (e : String × PyVal) : Decidable (goodEntry e) :=
  match he : e.2 with
  | .dictv ckvs =>
      decidable_of_iff (validEntityIdB (pyLower e.1) = true ∧
        goodDomainCfg (split_entity_id_domain (pyLower e.1)) ckvs) (by
          constructor
          · rintro ⟨h1, h2⟩
            exact ⟨h1, ckvs, he, h2⟩
          · rintro ⟨h1, c, hc, h2⟩
            rw [he] at hc
            injection hc with hc'
            subst hc'
            exact ⟨h1, h2⟩)
  | .none => isFalse (by rintro ⟨-, c, hc, -⟩; rw [he] at hc; cases hc)
  | .bool _ => isFalse (by rintro ⟨-, c, hc, -⟩; rw [he] at hc; cases hc)
  | .int _ => isFalse (by rintro ⟨-, c, hc, -⟩; rw [he] at hc; cases hc)
  | .str _ => isFalse (by rintro ⟨-, c, hc, -⟩; rw [he] at hc; cases hc)
  | .listv _ => isFalse (by rintro ⟨-, c, hc, -⟩; rw [he] at hc; cases hc)

instance (v : PyVal) : Decidable (goodConfigInput v) :=
  match v with
  | .dictv kvs => decidable_of_iff (∀ e ∈ kvs, goodEntry e) (by
      constructor
      · intro h; exact ⟨kvs, rfl, h⟩
      · rintro ⟨k, hk, h⟩; cases hk; exact h)
  | .none => isFalse (by rintro ⟨c, hc, -⟩; cases hc)
  | .bool _ => isFalse (by rintro ⟨c, hc, -⟩; cases hc)
  | .int _ => isFalse (by rintro ⟨c, hc, -⟩; cases hc)
  | .str _ => isFalse (by rintro ⟨c, hc, -⟩; cases hc)
  | .listv _ => isFalse (by rintro ⟨c, hc, -⟩; cases hc)

/-! ### Dictionary lookup helper lemmas -/

theorem lookup_cons {β : Type} (a k : String) (b : β) (l : List (String × β)) :
    List.lookup a ((k, b) :: l) = if a = k then some b else List.lookup a l := by
  by_cases h : a = k
  · subst h
    simp [List.lookup]
  · rw [if_neg h]
    simp [List.lookup, beq_eq_false_iff_ne.mpr h]

theorem lookup_append {β : Type} (a : String) (l1 l2 : List (String × β)) :
    List.lookup a (l1 ++ l2) = (List.lookup a l1).or (List.lookup a l2) := by
  induction l1 with
  | nil => simp [List.lookup]
  | cons kv rest ih =>
      rw [List.cons_append, show kv = (kv.1, kv.2) from rfl, lookup_cons, lookup_cons]
      split
      · simp
      · exact ih

/-! ### Success of a schema run, characterized -/

/-- Whether one dictionary entry passes the key table: the key is declared
and its validator accepts the value. -/
def keyOkB (allowed : String → Option (PyVal → Except PErr PyVal))
    (kv : String × PyVal) : Bool :=
  match allowed kv.1 with
  | some f => isOkE (f kv.2)
  | Option.none => false

theorem isOkE_iff {α : Type} (e : Except PErr α) : isOkE e = true ↔ ∃ x, e = .ok x := by
  cases e <;> simp [isOkE]

theorem except_map_ok {α β : Type} (g : α → β) (e : Except PErr α) (o : β) :
    e.map g = .ok o ↔ ∃ x, e = .ok x ∧ g x = o := by
  cases e <;> simp [Except.map]

theorem isOkE_map {α β : Type} (g : α → β) (e : Except PErr α) :
    isOkE (e.map g) = isOkE e := by
  cases e <;> simp [Except.map, isOkE]

theorem isOkE_cvString (v : PyVal) : isOkE (cvString v) = stringableB v := by
  unfold cvString stringableB
  cases h : coerceStr v <;> simp [h, isOkE]

theorem isOkE_inList (names : List String) (v : PyVal) :
    isOkE (inList names v) = coercesInto names v := by
  unfold inList coercesInto
  cases h : coerceStr v
  · simp [isOkE]
  · next s =>
    by_cases hc : s ∈ names <;> simp [hc, isOkE]

theorem isOkE_anyNoneString (v : PyVal) :
    isOkE (anyNoneString v) = (isNoneB v || stringableB v) := by
  cases v <;>
    simp [anyNoneString, isNoneB, isOkE, cvString, coerceStr, stringableB]

theorem validateEntries_all (allowed : String → Option (PyVal → Except PErr PyVal))
    (kvs : PyDict) :
    isOkE (validateEntries allowed kvs) = kvs.all (keyOkB allowed) := by
  induction kvs with
  | nil => rfl
  | cons kv rest ih =>
      unfold validateEntries
      cases ha : allowed kv.1 with
      | none => simp [List.all_cons, keyOkB, ha, isOkE]
      | some f =>
          cases hf : f kv.2 with
          | error e => simp [List.all_cons, keyOkB, ha, hf, isOkE]
          | ok v' =>
              cases hr : validateEntries allowed rest with
              | error e => simp_all [List.all_cons, keyOkB, ha, hf, hr, isOkE, Except.map]
              | ok out => simp_all [List.all_cons, keyOkB, ha, hf, hr, isOkE, Except.map]

theorem validateEntries_cons_ok
    {allowed : String → Option (PyVal → Except PErr PyVal)} {kv : String × PyVal}
    {rest out : PyDict} (h : validateEntries allowed (kv :: rest) = .ok out) :
    ∃ f v' out', allowed kv.1 = some f ∧ f kv.2 = .ok v' ∧
      validateEntries allowed rest = .ok out' ∧ out = (kv.1, v') :: out' := by
  unfold validateEntries at h
  cases ha : allowed kv.1 with
  | none =>
      simp only [ha] at h
      exact Except.noConfusion h
  | some f =>
      simp only [ha] at h
      cases hf : f kv.2 with
      | error e =>
          simp only [hf] at h
          exact Except.noConfusion h
      | ok v' =>
          simp only [hf, except_map_ok] at h
          obtain ⟨out', hr, ho⟩ := h
          exact ⟨f, v', out', rfl, hf, hr, ho.symm⟩

theorem validateEntries_lookup_some
    {allowed : String → Option (PyVal → Except PErr PyVal)} {kvs out : PyDict}
    (h : validateEntries allowed kvs = .ok out) (k : String) (x : PyVal)
    (hk : List.lookup k kvs = some x) :
    ∃ f v', allowed k = some f ∧ f x = .ok v' ∧ List.lookup k out = some v' := by
  induction kvs generalizing out with
  | nil => simp [List.lookup] at hk
  | cons kv rest ih =>
      obtain ⟨f, v', out', ha, hf, hr, ho⟩ := validateEntries_cons_ok h
      subst ho
      rw [show kv = (kv.1, kv.2) from rfl, lookup_cons] at hk
      by_cases hkk : k = kv.1
      · rw [if_pos hkk] at hk
        injection hk with hx
        subst hx
        exact ⟨f, v', hkk ▸ ha, hf, by rw [lookup_cons, if_pos hkk]⟩
      · rw [if_neg hkk] at hk
        obtain ⟨g, w, hg, hw, hl⟩ := ih hr hk
        exact ⟨g, w, hg, hw, by rw [lookup_cons, if_neg hkk]; exact hl⟩

theorem validateEntries_lookup_none
    {allowed : String → Option (PyVal → Except PErr PyVal)} {kvs out : PyDict}
    (h : validateEntries allowed kvs = .ok out) (k : String)
    (hk : List.lookup k kvs = Option.none) :
    List.lookup k out = Option.none := by
  induction kvs generalizing out with
  | nil =>
      unfold validateEntries at h
      simp only [Except.ok.injEq] at h
      subst h
      exact hk
  | cons kv rest ih =>
      obtain ⟨f, v', out', ha, hf, hr, ho⟩ := validateEntries_cons_ok h
      subst ho
      rw [show kv = (kv.1, kv.2) from rfl, lookup_cons] at hk
      by_cases hkk : k = kv.1
      · rw [if_pos hkk] at hk
        exact absurd hk (by simp)
      · rw [if_neg hkk] at hk
        rw [lookup_cons, if_neg hkk]
        exact ih hr hk

theorem isOkE_runSchema (allowed : String → Option (PyVal → Except PErr PyVal))
    (defaults : PyDict) (required : List String) (kvs : PyDict) :
    isOkE (runSchema allowed defaults required (.dictv kvs)) =
      (required.all (fun r => (List.lookup r (fillDefaults kvs defaults)).isSome) &&
        (fillDefaults kvs defaults).all (keyOkB allowed)) := by
  cases hreq : required.all (fun r => (List.lookup r (fillDefaults kvs defaults)).isSome) with
  | false => simp [runSchema, hreq, isOkE]
  | true => simp [runSchema, hreq, isOkE_map, validateEntries_all]

theorem fillDefaults_all (p : String × PyVal → Bool) (kvs defaults : PyDict)
    (hd : ∀ d ∈ defaults, p d = true) :
    (fillDefaults kvs defaults).all p = kvs.all p := by
  unfold fillDefaults
  rw [List.all_append]
  have hh : (defaults.filter fun d => (List.lookup d.1 kvs).isNone).all p = true := by
    rw [List.all_eq_true]
    intro d hdm
    exact hd d (List.mem_of_mem_filter hdm)
  rw [hh, Bool.and_true]

theorem keyOk_basic_eq : keyOkB basicAllowed = goodBasicKV := by
  funext kv
  unfold keyOkB basicAllowed goodBasicKV
  by_cases h : kv.1 = CONF_NAME
  · simp [h, isOkE_cvString]
  · simp [h, beq_iff_eq]

theorem keyOk_code_eq : keyOkB codeAllowed = goodCodeKV := by
  funext kv
  unfold keyOkB codeAllowed goodCodeKV goodBasicKV
  by_cases h1 : kv.1 = CONF_NAME
  · simp [h1, isOkE_cvString, CONF_NAME, ATTR_CODE]
  · by_cases h2 : kv.1 = ATTR_CODE
    · simp [h1, h2, isOkE_anyNoneString, beq_iff_eq, CONF_NAME, ATTR_CODE]
    · simp [h1, h2, beq_iff_eq]

theorem keyOk_feature_eq : keyOkB featureAllowed = goodMediaKV := by
  funext kv
  unfold keyOkB featureAllowed goodMediaKV goodBasicKV
  by_cases h1 : kv.1 = CONF_NAME
  · simp [h1, isOkE_cvString, CONF_NAME, CONF_FEATURE_LIST]
  · by_cases h2 : kv.1 = CONF_FEATURE_LIST
    · simp [h1, h2, isOkE, beq_iff_eq, CONF_NAME, CONF_FEATURE_LIST]
    · simp [h1, h2, beq_iff_eq]

theorem keyOk_switch_eq : keyOkB switchAllowed = goodSwitchKV := by
  funext kv
  unfold keyOkB switchAllowed goodSwitchKV goodBasicKV
  by_cases h1 : kv.1 = CONF_NAME
  · simp [h1, isOkE_cvString, CONF_NAME, CONF_TYPE]
  · by_cases h2 : kv.1 = CONF_TYPE
    · simp [h1, h2, isOkE_inList, beq_iff_eq, CONF_NAME, CONF_TYPE]
    · simp [h1, h2, beq_iff_eq]

theorem BASIC_SCHEMA_ok (ckvs : PyDict) :
    isOkE (BASIC_INFO_SCHEMA (.dictv ckvs)) = ckvs.all goodBasicKV := by
  unfold BASIC_INFO_SCHEMA
  rw [isOkE_runSchema, fillDefaults_all _ _ _ (by intro d hd; cases hd)]
  simp [keyOk_basic_eq]

theorem CODE_SCHEMA_ok (ckvs : PyDict) :
    isOkE (CODE_SCHEMA (.dictv ckvs)) = ckvs.all goodCodeKV := by
  unfold CODE_SCHEMA
  rw [isOkE_runSchema,
    fillDefaults_all _ _ _ (by intro d hd; simp at hd; rw [hd]; decide)]
  simp [keyOk_code_eq]

theorem FEATURE_SCHEMA_ok (ckvs : PyDict) :
    isOkE (FEATURE_SCHEMA (.dictv ckvs)) = ckvs.all goodMediaKV := by
  unfold FEATURE_SCHEMA
  rw [isOkE_runSchema,
    fillDefaults_all _ _ _ (by intro d hd; simp at hd; rw [hd]; decide)]
  simp [keyOk_feature_eq]

theorem SWITCH_SCHEMA_ok (ckvs : PyDict) :
    isOkE (SWITCH_TYPE_SCHEMA (.dictv ckvs)) = ckvs.all goodSwitchKV := by
  unfold SWITCH_TYPE_SCHEMA
  rw [isOkE_runSchema,
    fillDefaults_all _ _ _ (by intro d hd; simp at hd; rw [hd]; decide)]
  simp [keyOk_switch_eq]

theorem keyOk_media_eq :
    keyOkB mediaAllowed = fun kv =>
      kv.1 == CONF_FEATURE && coercesInto mediaFeatureNames kv.2 := by
  funext kv
  unfold keyOkB mediaAllowed
  by_cases h : kv.1 = CONF_FEATURE
  · simp [h, isOkE_inList]
  · simp [h, beq_iff_eq]

theorem MEDIA_SCHEMA_ok (f : PyVal) :
    isOkE (MEDIA_PLAYER_SCHEMA f) = goodFeatureEntry f := by
  cases f with
  | dictv pkvs =>
      unfold MEDIA_PLAYER_SCHEMA
      rw [isOkE_runSchema]
      unfold goodFeatureEntry
      rw [fillDefaults_all _ _ _ (by intro d hd; cases hd)]
      simp only [fillDefaults, List.filter_nil, List.append_nil, List.all_cons,
        List.all_nil, Bool.and_true, keyOk_media_eq]
      exact Bool.and_comm _ _
  | none => rfl
  | bool b => rfl
  | int n => rfl
  | str s => rfl
  | listv xs => rfl

/-! ### The feature loop, characterized -/

theorem fillDefaults_nil (kvs : PyDict) : fillDefaults kvs [] = kvs := by
  simp [fillDefaults]

theorem runSchema_ok_shape {allowed : String → Option (PyVal → Except PErr PyVal)}
    {defaults : PyDict} {required : List String} {kvs : PyDict} {w : PyVal}
    (h : runSchema allowed defaults required (.dictv kvs) = .ok w) :
    ∃ out, w = .dictv out ∧
      validateEntries allowed (fillDefaults kvs defaults) = .ok out := by
  simp only [runSchema] at h
  split at h
  · rw [except_map_ok] at h
    obtain ⟨out, hv, ho⟩ := h
    exact ⟨out, ho.symm, hv⟩
  · exact Except.noConfusion h

theorem mediaSchema_good_shape {f : PyVal} (hg : goodFeatureEntry f = true) :
    ∃ pkvs k, MEDIA_PLAYER_SCHEMA f = .ok (.dictv pkvs) ∧
      List.lookup CONF_FEATURE pkvs = some (.str k) ∧ entryFeatureName f = some k := by
  cases f with
  | dictv raw =>
      have hok : isOkE (MEDIA_PLAYER_SCHEMA (.dictv raw)) = true := by
        rw [MEDIA_SCHEMA_ok]; exact hg
      obtain ⟨w, hw⟩ := (isOkE_iff _).mp hok
      obtain ⟨pkvs, hwd, hve⟩ := runSchema_ok_shape hw
      rw [fillDefaults_nil] at hve
      unfold goodFeatureEntry at hg
      rw [Bool.and_eq_true] at hg
      obtain ⟨x, hx⟩ := Option.isSome_iff_exists.mp hg.2
      obtain ⟨g, v', hgall, hgx, hlo⟩ :=
        validateEntries_lookup_some hve CONF_FEATURE x hx
      rw [show mediaAllowed CONF_FEATURE = some (inList mediaFeatureNames) by
        simp [mediaAllowed]] at hgall
      injection hgall with hgeq
      subst hgeq
      unfold inList at hgx
      cases hcx : coerceStr x with
      | none =>
          simp only [hcx] at hgx
          exact Except.noConfusion hgx
      | some s =>
          simp only [hcx] at hgx
          split at hgx
          · injection hgx with hv'
            subst hv'
            refine ⟨pkvs, s, hwd ▸ hw, hlo, ?_⟩
            simp only [entryFeatureName, hx, Option.some_bind]
            exact hcx
          · exact Except.noConfusion hgx
  | none => simp [goodFeatureEntry] at hg
  | bool b => simp [goodFeatureEntry] at hg
  | int n => simp [goodFeatureEntry] at hg
  | str s => simp [goodFeatureEntry] at hg
  | listv xs => simp [goodFeatureEntry] at hg

theorem lookup_append_none {β : Type} (s k : String) (v : β) (acc : List (String × β)) :
    (List.lookup s (acc ++ [(k, v)]) = Option.none) ↔
      (List.lookup s acc = Option.none ∧ s ≠ k) := by
  rw [lookup_append]
  cases List.lookup s acc with
  | none =>
      simp only [Option.or, lookup_cons]
      by_cases h : s = k <;> simp [h, List.lookup]
  | some x => simp [Option.or]

theorem featureNamesOf_cons (f : PyVal) (rest : List PyVal) (k : String)
    (h : entryFeatureName f = some k) :
    featureNamesOf (f :: rest) = k :: featureNamesOf rest := by
  unfold featureNamesOf
  rw [List.filterMap_cons, h]

theorem processFeatures_ok_iff (fs : List PyVal) (acc : PyDict) :
    isOkE (processFeatures fs acc) = true ↔
      ((∀ f ∈ fs, goodFeatureEntry f = true) ∧ (featureNamesOf fs).Nodup ∧
        ∀ s ∈ featureNamesOf fs, List.lookup s acc = Option.none) := by
  induction fs generalizing acc with
  | nil => simp [processFeatures, featureNamesOf, isOkE]
  | cons f rest ih =>
      by_cases hg : goodFeatureEntry f = true
      · obtain ⟨pkvs, k, hme, hlk, hname⟩ := mediaSchema_good_shape hg
        rw [featureNamesOf_cons f rest k hname]
        unfold processFeatures
        rw [hme]
        simp only [hlk]
        by_cases hacc : (List.lookup k acc).isSome = true
        · rw [if_pos hacc]
          simp only [isOkE, Bool.false_eq_true, false_iff]
          rintro ⟨-, -, h3⟩
          have := h3 k (List.mem_cons_self _ _)
          rw [this] at hacc
          exact Bool.noConfusion hacc
        · rw [if_neg hacc, ih]
          have hknone : List.lookup k acc = Option.none :=
            Option.not_isSome_iff_eq_none.mp hacc
          constructor
          · rintro ⟨h1, h2, h3⟩
            refine ⟨fun x hx => ?_, ?_, ?_⟩
            · rcases List.mem_cons.mp hx with hx | hx
              · exact hx ▸ hg
              · exact h1 x hx
            · rw [List.nodup_cons]
              refine ⟨fun hkmem => ?_, h2⟩
              have := (lookup_append_none k k _ acc).mp (h3 k hkmem)
              exact this.2 rfl
            · intro s hs
              rcases List.mem_cons.mp hs with hs | hs
              · exact hs ▸ hknone
              · exact ((lookup_append_none s k _ acc).mp (h3 s hs)).1
          · rintro ⟨h1, h2, h3⟩
            rw [List.nodup_cons] at h2
            refine ⟨fun x hx => h1 x (List.mem_cons_of_mem _ hx), h2.2, ?_⟩
            intro s hs
            rw [lookup_append_none]
            exact ⟨h3 s (List.mem_cons_of_mem _ hs), fun hsk => h2.1 (hsk ▸ hs)⟩
      · have hbad : isOkE (MEDIA_PLAYER_SCHEMA f) = false := by
          rw [MEDIA_SCHEMA_ok]
          exact Bool.not_eq_true _ ▸ (by simpa using hg)
        obtain ⟨e, he⟩ : ∃ e, MEDIA_PLAYER_SCHEMA f = .error e := by
          cases hme : MEDIA_PLAYER_SCHEMA f with
          | ok w => rw [hme] at hbad; exact Bool.noConfusion hbad
          | error e => exact ⟨e, rfl⟩
        unfold processFeatures
        rw [he]
        simp only [isOkE, Bool.false_eq_true, false_iff]
        rintro ⟨h1, -, -⟩
        exact hg (h1 f (List.mem_cons_self _ _))

/-! ### The per-domain dispatch, characterized -/

theorem fillDefaults_single_missing {kvs : PyDict} {d : String × PyVal}
    (h : List.lookup d.1 kvs = Option.none) :
    fillDefaults kvs [d] = kvs ++ [d] := by
  simp [fillDefaults, List.filter, h]

theorem fillDefaults_single_present {kvs : PyDict} {d : String × PyVal}
    (h : (List.lookup d.1 kvs).isSome = true) :
    fillDefaults kvs [d] = kvs := by
  simp only [fillDefaults, List.filter]
  rw [show (List.lookup d.1 kvs).isNone = false by
    cases hx : List.lookup d.1 kvs with
    | some x => rfl
    | none => rw [hx] at h; exact Bool.noConfusion h]
  simp

theorem FEATURE_out_feature_list {ckvs out : PyDict}
    (h : FEATURE_SCHEMA (.dictv ckvs) = .ok (.dictv out)) :
    List.lookup CONF_FEATURE_LIST out = some (.listv (rawFeatureList ckvs)) := by
  unfold FEATURE_SCHEMA at h
  obtain ⟨out', ho, hve⟩ := runSchema_ok_shape h
  injection ho with ho'
  subst ho'
  have hfa : featureAllowed CONF_FEATURE_LIST =
      some (fun v => .ok (.listv (ensure_list v))) := by
    simp [featureAllowed, CONF_NAME, CONF_FEATURE_LIST]
  cases hlo : List.lookup CONF_FEATURE_LIST ckvs with
  | some x =>
      have hfl : List.lookup CONF_FEATURE_LIST
          (fillDefaults ckvs [(CONF_FEATURE_LIST, PyVal.none)]) = some x := by
        rw [fillDefaults_single_present (by rw [hlo]; rfl)]
        exact hlo
      obtain ⟨g, v', hga, hgx, hl⟩ := validateEntries_lookup_some hve _ x hfl
      rw [hfa] at hga
      injection hga with hg
      subst hg
      injection hgx with hv'
      rw [hl, ← hv']
      unfold rawFeatureList lookupOrNone
      rw [hlo]
      rfl
  | none =>
      have hfl : List.lookup CONF_FEATURE_LIST
          (fillDefaults ckvs [(CONF_FEATURE_LIST, PyVal.none)]) =
            some PyVal.none := by
        rw [fillDefaults_single_missing (by exact hlo), lookup_append, hlo]
        simp [Option.or, lookup_cons]
      obtain ⟨g, v', hga, hgx, hl⟩ := validateEntries_lookup_some hve _ _ hfl
      rw [hfa] at hga
      injection hga with hg
      subst hg
      injection hgx with hv'
      rw [hl, ← hv']
      unfold rawFeatureList lookupOrNone
      rw [hlo]
      rfl

theorem validateDomainConfig_ok_iff (domain : String) (ckvs : PyDict) :
    isOkE (validateDomainConfig domain (.dictv ckvs)) = true ↔
      goodDomainCfg domain ckvs := by
  unfold validateDomainConfig goodDomainCfg
  by_cases h1 : domain = "alarm_control_panel" ∨ domain = "lock"
  · rw [if_pos h1, if_pos h1, CODE_SCHEMA_ok]
    exact List.all_eq_true
  · rw [if_neg h1, if_neg h1]
    by_cases h2 : domain = "media_player"
    · rw [if_pos h2, if_pos h2]
      cases hfs : FEATURE_SCHEMA (.dictv ckvs) with
      | error e =>
          have hfalse : isOkE (FEATURE_SCHEMA (.dictv ckvs)) = false := by
            rw [hfs]; rfl
          rw [FEATURE_SCHEMA_ok] at hfalse
          simp only [isOkE, Bool.false_eq_true, false_iff]
          rintro ⟨hall, -, -⟩
          rw [List.all_eq_true.mpr hall] at hfalse
          exact Bool.noConfusion hfalse
      | ok w =>
          have hall : ∀ kv ∈ ckvs, goodMediaKV kv = true :=
            List.all_eq_true.mp (by rw [← FEATURE_SCHEMA_ok, hfs]; rfl)
          obtain ⟨out, hwd, -⟩ := runSchema_ok_shape (by
            rw [show runSchema featureAllowed [(CONF_FEATURE_LIST, PyVal.none)] []
              (PyVal.dictv ckvs) = FEATURE_SCHEMA (PyVal.dictv ckvs) from rfl]
            exact hfs)
          subst hwd
          have hfl := FEATURE_out_feature_list hfs
          simp only [lookupOrNone, hfl, Option.getD_some]
          have hmm : isOkE (match processFeatures (rawFeatureList ckvs) [] with
              | .ok fl => Except.ok (PyVal.dictv
                  (dictSet out CONF_FEATURE_LIST (PyVal.dictv fl)))
              | .error e => (Except.error e : Except PErr PyVal)) =
              isOkE (processFeatures (rawFeatureList ckvs) []) := by
            cases processFeatures (rawFeatureList ckvs) [] <;> rfl
          rw [hmm, processFeatures_ok_iff]
          constructor
          · rintro ⟨ha, hn, -⟩
            exact ⟨hall, ha, hn⟩
          · rintro ⟨-, ha, hn⟩
            exact ⟨ha, hn, fun s _ => rfl⟩
    · rw [if_neg h2, if_neg h2]
      by_cases h3 : domain = "switch"
      · rw [if_pos h3, if_pos h3, SWITCH_SCHEMA_ok]
        exact List.all_eq_true
      · rw [if_neg h3, if_neg h3, BASIC_SCHEMA_ok]
        exact List.all_eq_true

theorem processEntry_ok_iff (eid : String) (config : PyVal) :
    isOkE (processEntry eid config) = true ↔ goodEntry (eid, config) := by
  unfold processEntry goodEntry
  simp only [cvEntityId]
  by_cases hid : validEntityIdB (pyLower eid) = true
  · rw [if_pos hid]
    cases config with
    | dictv ckvs =>
        simp only [isOkE_map]
        rw [validateDomainConfig_ok_iff]
        constructor
        · intro h
          exact ⟨hid, ckvs, rfl, h⟩
        · rintro ⟨-, ckvs', hc, h⟩
          injection hc with hc'
          subst hc'
          exact h
    | none => simp [isOkE]
    | bool b => simp [isOkE]
    | int n => simp [isOkE]
    | str s => simp [isOkE]
    | listv xs => simp [isOkE]
  · rw [if_neg hid]
    simp only [isOkE, Bool.false_eq_true, false_iff]
    rintro ⟨h, -⟩
    exact hid h

theorem processEntities_ok_iff (kvs : List (String × PyVal)) (acc : PyDict) :
    isOkE (processEntities kvs acc) = true ↔ ∀ e ∈ kvs, goodEntry e := by
  induction kvs generalizing acc with
  | nil => simp [processEntities, isOkE]
  | cons e rest ih =>
      obtain ⟨eid, cfg⟩ := e
      unfold processEntities
      cases hpe : processEntry eid cfg with
      | error er =>
          have hbad : ¬ goodEntry (eid, cfg) := by
            rw [← processEntry_ok_iff, hpe]
            simp [isOkE]
          simp only [isOkE, Bool.false_eq_true, false_iff]
          intro hall
          exact hbad (hall (eid, cfg) (List.mem_cons_self _ _))
      | ok ec =>
          have hgood : goodEntry (eid, cfg) := by
            rw [← processEntry_ok_iff, hpe]
            rfl
          rw [ih]
          constructor
          · intro h x hx
            rcases List.mem_cons.mp hx with hx | hx
            · exact hx ▸ hgood
            · exact h x hx
          · intro h x hx
            exact h x (List.mem_cons_of_mem _ hx)

theorem validate_ok_iff_good (v : PyVal) :
    isOkE (validate_entity_config v) = true ↔ goodConfigInput v := by
  cases v with
  | dictv kvs =>
      unfold validate_entity_config goodConfigInput
      rw [isOkE_map, processEntities_ok_iff]
      constructor
      · intro h
        exact ⟨kvs, rfl, h⟩
      · rintro ⟨kvs', hk, h⟩
        injection hk with hk'
        subst hk'
        exact h
  | none => simp [validate_entity_config, goodConfigInput, isOkE]
  | bool b => simp [validate_entity_config, goodConfigInput, isOkE]
  | int n => simp [validate_entity_config, goodConfigInput, isOkE]
  | str s => simp [validate_entity_config, goodConfigInput, isOkE]
  | listv xs => simp [validate_entity_config, goodConfigInput, isOkE]

/-! ### Output-shape lemmas -/

theorem lookup_filter_none {β : Type} {l : List (String × β)} {k : String}
    (h : List.lookup k l = Option.none) (p : String × β → Bool) :
    List.lookup k (l.filter p) = Option.none := by
  induction l with
  | nil => rfl
  | cons kv rest ih =>
      rw [show kv = (kv.1, kv.2) from rfl, lookup_cons] at h
      by_cases hk : k = kv.1
      · rw [if_pos hk] at h
        exact Option.noConfusion h
      · rw [if_neg hk] at h
        rw [List.filter_cons]
        split
        · rw [show kv = (kv.1, kv.2) from rfl, lookup_cons, if_neg hk]
          exact ih h
        · exact ih h

theorem lookup_fillDefaults_none {kvs defaults : PyDict} {k : String}
    (h1 : List.lookup k kvs = Option.none)
    (h2 : List.lookup k defaults = Option.none) :
    List.lookup k (fillDefaults kvs defaults) = Option.none := by
  unfold fillDefaults
  rw [lookup_append, h1, lookup_filter_none h2]
  rfl

theorem lookup_map_setter (kvs : PyDict) (k k' : String) (v : PyVal)
    (hne : k' ≠ k) :
    List.lookup k' (kvs.map (fun kv => if kv.1 = k then (k, v) else kv)) =
      List.lookup k' kvs := by
  induction kvs with
  | nil => rfl
  | cons kv rest ih =>
      rw [List.map_cons]
      by_cases hk : kv.1 = k
      · rw [if_pos hk, lookup_cons, if_neg hne, show kv = (kv.1, kv.2) from rfl,
          lookup_cons, if_neg (fun hh => hne (hh.trans hk))]
        exact ih
      · rw [if_neg hk, show kv = (kv.1, kv.2) from rfl, lookup_cons, lookup_cons]
        by_cases hkk : k' = kv.1
        · rw [if_pos hkk, if_pos hkk]
        · rw [if_neg hkk, if_neg hkk]
          exact ih

theorem lookup_map_setter_self (kvs : PyDict) (k : String) (v : PyVal)
    (h : (List.lookup k kvs).isSome = true) :
    List.lookup k (kvs.map (fun kv => if kv.1 = k then (k, v) else kv)) =
      some v := by
  induction kvs with
  | nil => simp [List.lookup] at h
  | cons kv rest ih =>
      rw [List.map_cons]
      by_cases hk : kv.1 = k
      · rw [if_pos hk, lookup_cons, if_pos rfl]
      · rw [if_neg hk, show kv = (kv.1, kv.2) from rfl, lookup_cons,
          if_neg (fun hh => hk hh.symm)]
        apply ih
        rw [show kv = (kv.1, kv.2) from rfl, lookup_cons,
          if_neg (fun hh => hk hh.symm)] at h
        exact h

theorem lookup_dictSet_self (kvs : PyDict) (k : String) (v : PyVal) :
    List.lookup k (dictSet kvs k v) = some v := by
  unfold dictSet
  by_cases h : (List.lookup k kvs).isSome = true
  · rw [if_pos h]
    exact lookup_map_setter_self kvs k v h
  · rw [if_neg h, lookup_append, Option.not_isSome_iff_eq_none.mp h, lookup_cons,
      if_pos rfl]
    rfl

theorem lookup_dictSet_ne (kvs : PyDict) (k k' : String) (v : PyVal)
    (hne : k' ≠ k) : List.lookup k' (dictSet kvs k v) = List.lookup k' kvs := by
  unfold dictSet
  by_cases h : (List.lookup k kvs).isSome = true
  · rw [if_pos h]
    exact lookup_map_setter kvs k k' v hne
  · rw [if_neg h, lookup_append, lookup_cons, if_neg hne]
    cases List.lookup k' kvs <;> rfl

theorem processEntry_ok_shape {eid : String} {config : PyVal}
    {ec : String × PyVal} (h : processEntry eid config = .ok ec) :
    ec.1 = pyLower eid ∧
      validateDomainConfig (split_entity_id_domain (pyLower eid)) config =
        .ok ec.2 := by
  unfold processEntry at h
  cases hce : cvEntityId eid with
  | error e =>
      rw [hce] at h
      exact Except.noConfusion h
  | ok entity =>
      rw [hce] at h
      have hent : entity = pyLower eid := by
        unfold cvEntityId at hce
        split at hce
        · injection hce with h'
          exact h'.symm
        · exact Except.noConfusion hce
      clear hce
      subst hent
      cases config with
      | dictv ckvs =>
          simp only [except_map_ok] at h
          obtain ⟨c, hc, he⟩ := h
          subst he
          exact ⟨rfl, hc⟩
      | none => simp at h
      | bool b => simp at h
      | int n => simp at h
      | str s => simp at h
      | listv xs => simp at h

theorem validate_singleton_shape {eid : String} {cfg : PyVal} {w : PyVal}
    (h : validate_entity_config (.dictv [(eid, cfg)]) = .ok w) :
    ∃ cfg', processEntry eid cfg = .ok (pyLower eid, cfg') ∧
      w = .dictv [(pyLower eid, cfg')] := by
  unfold validate_entity_config at h
  rw [except_map_ok] at h
  obtain ⟨x, hx, hw⟩ := h
  unfold processEntities at hx
  cases hpe : processEntry eid cfg with
  | error er =>
      rw [hpe] at hx
      exact Except.noConfusion hx
  | ok ec =>
      rw [hpe] at hx
      unfold processEntities at hx
      injection hx with hx'
      obtain ⟨h1, -⟩ := processEntry_ok_shape hpe
      refine ⟨ec.2, ?_, ?_⟩
      · rw [← h1]
      · rw [← hw, ← hx', ← h1]
        rfl

theorem codeDomain_schema {dom : String}
    (h : dom = "alarm_control_panel" ∨ dom = "lock") (config : PyVal) :
    validateDomainConfig dom config = CODE_SCHEMA config := by
  unfold validateDomainConfig
  rw [if_pos h]

theorem switchDomain_schema {dom : String} (h : dom = "switch") (config : PyVal) :
    validateDomainConfig dom config = SWITCH_TYPE_SCHEMA config := by
  subst h
  unfold validateDomainConfig
  rw [if_neg (by decide), if_neg (by decide), if_pos rfl]

theorem mediaDomain_ok_shape {ckvs : PyDict} {cfg' : PyVal}
    (h : validateDomainConfig "media_player" (.dictv ckvs) = .ok cfg') :
    ∃ out fl, FEATURE_SCHEMA (.dictv ckvs) = .ok (.dictv out) ∧
      processFeatures (rawFeatureList ckvs) [] = .ok fl ∧
      cfg' = .dictv (dictSet out CONF_FEATURE_LIST (.dictv fl)) := by
  unfold validateDomainConfig at h
  rw [if_neg (by decide), if_pos rfl] at h
  cases hfs : FEATURE_SCHEMA (.dictv ckvs) with
  | error e =>
      rw [hfs] at h
      exact Except.noConfusion h
  | ok w =>
      have hshape : ∃ out, w = PyVal.dictv out := by
        unfold FEATURE_SCHEMA at hfs
        obtain ⟨out, ho, -⟩ := runSchema_ok_shape hfs
        exact ⟨out, ho⟩
      obtain ⟨out, ho⟩ := hshape
      subst ho
      have hfl := FEATURE_out_feature_list hfs
      rw [hfs] at h
      simp only [lookupOrNone, hfl, Option.getD_some] at h
      cases hpf : processFeatures (rawFeatureList ckvs) [] with
      | error e =>
          rw [hpf] at h
          exact Except.noConfusion h
      | ok fl =>
          rw [hpf] at h
          injection h with h'
          exact ⟨out, fl, rfl, rfl, h'.symm⟩

theorem basicDomain_schema {dom : String}
    (h1 : ¬(dom = "alarm_control_panel" ∨ dom = "lock"))
    (h2 : dom ≠ "media_player") (h3 : dom ≠ "switch") (config : PyVal) :
    validateDomainConfig dom config = BASIC_INFO_SCHEMA config := by
  unfold validateDomainConfig
  rw [if_neg h1, if_neg h2, if_neg h3]

theorem validateDomainConfig_dict_out {dom : String} {ckvs : PyDict}
    {cfg' : PyVal} (h : validateDomainConfig dom (.dictv ckvs) = .ok cfg') :
    ∃ out, cfg' = .dictv out := by
  by_cases h1 : dom = "alarm_control_panel" ∨ dom = "lock"
  · rw [codeDomain_schema h1] at h
    unfold CODE_SCHEMA at h
    obtain ⟨out, ho, -⟩ := runSchema_ok_shape h
    exact ⟨out, ho⟩
  · by_cases h2 : dom = "media_player"
    · subst h2
      obtain ⟨out, fl, -, -, hc⟩ := mediaDomain_ok_shape h
      exact ⟨_, hc⟩
    · by_cases h3 : dom = "switch"
      · rw [switchDomain_schema h3] at h
        unfold SWITCH_TYPE_SCHEMA at h
        obtain ⟨out, ho, -⟩ := runSchema_ok_shape h
        exact ⟨out, ho⟩
      · rw [basicDomain_schema h1 h2 h3] at h
        unfold BASIC_INFO_SCHEMA at h
        obtain ⟨out, ho, -⟩ := runSchema_ok_shape h
        exact ⟨out, ho⟩

theorem CODE_SCHEMA_code_default {ckvs out : PyDict}
    (h : CODE_SCHEMA (.dictv ckvs) = .ok (.dictv out))
    (hc : List.lookup ATTR_CODE ckvs = Option.none) :
    List.lookup ATTR_CODE out = some PyVal.none := by
  unfold CODE_SCHEMA at h
  obtain ⟨out', ho, hve⟩ := runSchema_ok_shape h
  injection ho with ho'
  subst ho'
  have hfl : List.lookup ATTR_CODE (fillDefaults ckvs [(ATTR_CODE, PyVal.none)]) =
      some PyVal.none := by
    rw [fillDefaults_single_missing (by exact hc), lookup_append, hc]
    simp [Option.or, lookup_cons]
  obtain ⟨g, v', hga, hgx, hl⟩ := validateEntries_lookup_some hve _ _ hfl
  rw [show codeAllowed ATTR_CODE = some anyNoneString by
    simp [codeAllowed, CONF_NAME, ATTR_CODE]] at hga
  injection hga with hg
  subst hg
  have h2 : (Except.ok PyVal.none : Except PErr PyVal) = .ok v' := hgx
  injection h2 with h3
  rw [hl, ← h3]

theorem SWITCH_SCHEMA_type_default {ckvs out : PyDict}
    (h : SWITCH_TYPE_SCHEMA (.dictv ckvs) = .ok (.dictv out))
    (hc : List.lookup CONF_TYPE ckvs = Option.none) :
    List.lookup CONF_TYPE out = some (.str TYPE_SWITCH) := by
  unfold SWITCH_TYPE_SCHEMA at h
  obtain ⟨out', ho, hve⟩ := runSchema_ok_shape h
  injection ho with ho'
  subst ho'
  have hfl : List.lookup CONF_TYPE
      (fillDefaults ckvs [(CONF_TYPE, PyVal.str TYPE_SWITCH)]) =
        some (PyVal.str TYPE_SWITCH) := by
    rw [fillDefaults_single_missing (by exact hc), lookup_append, hc]
    simp [Option.or, lookup_cons]
  obtain ⟨g, v', hga, hgx, hl⟩ := validateEntries_lookup_some hve _ _ hfl
  rw [show switchAllowed CONF_TYPE = some (inList switchTypes) by
    simp [switchAllowed, CONF_NAME, CONF_TYPE]] at hga
  injection hga with hg
  subst hg
  have h2 : (Except.ok (PyVal.str TYPE_SWITCH) : Except PErr PyVal) = .ok v' := hgx
  injection h2 with h3
  rw [hl, ← h3]

theorem domain_name_omitted {dom : String} {ckvs : PyDict} {cfg' : PyVal}
    (h : validateDomainConfig dom (.dictv ckvs) = .ok cfg')
    (hn : List.lookup CONF_NAME ckvs = Option.none) :
    ∃ out, cfg' = .dictv out ∧ List.lookup CONF_NAME out = Option.none := by
  by_cases h1 : dom = "alarm_control_panel" ∨ dom = "lock"
  · rw [codeDomain_schema h1] at h
    unfold CODE_SCHEMA at h
    obtain ⟨out, ho, hve⟩ := runSchema_ok_shape h
    exact ⟨out, ho, validateEntries_lookup_none hve _
      (lookup_fillDefaults_none hn (by rfl))⟩
  · by_cases h2 : dom = "media_player"
    · subst h2
      obtain ⟨out, fl, hfs, hpf, hc⟩ := mediaDomain_ok_shape h
      unfold FEATURE_SCHEMA at hfs
      obtain ⟨out', ho', hve⟩ := runSchema_ok_shape hfs
      injection ho' with ho''
      subst ho''
      refine ⟨dictSet out CONF_FEATURE_LIST (.dictv fl), hc, ?_⟩
      rw [lookup_dictSet_ne _ _ _ _ (by decide : CONF_NAME ≠ CONF_FEATURE_LIST)]
      exact validateEntries_lookup_none hve _ (lookup_fillDefaults_none hn (by rfl))
    · by_cases h3 : dom = "switch"
      · rw [switchDomain_schema h3] at h
        unfold SWITCH_TYPE_SCHEMA at h
        obtain ⟨out, ho, hve⟩ := runSchema_ok_shape h
        exact ⟨out, ho, validateEntries_lookup_none hve _
          (lookup_fillDefaults_none hn (by rfl))⟩
      · rw [basicDomain_schema h1 h2 h3] at h
        unfold BASIC_INFO_SCHEMA at h
        obtain ⟨out, ho, hve⟩ := runSchema_ok_shape h
        exact ⟨out, ho, validateEntries_lookup_none hve _
          (lookup_fillDefaults_none hn (by rfl))⟩

/-! ### The five failure conditions claim C1 enumerates, as stated

Each predicate renders one condition of the claim on the raw input: the
top-level value is not a mapping; some per-entity record is not a mapping;
some entity identifier is malformed; an unknown enum value is supplied (a
media-player feature name or a switch sub-type outside the fixed
enumerations); a feature is repeated for the same entity. -/

/-- Whether a value is not a mapping. -/
def notMappingB : PyVal → Bool
  | .dictv _ => false
  | _ => true

/-- Condition 1 of C1: the top-level value is not a mapping. -/
def topLevelNotMapping (v : PyVal) : Bool := notMappingB v

/-- Condition 2 of C1: some per-entity record is not a mapping. -/
def someRecordNotMapping : PyVal → Bool
  | .dictv kvs => kvs.any (fun kv => notMappingB kv.2)
  | _ => false

/-- Condition 3 of C1: some entity identifier is malformed. -/
def someEntityIdMalformed : PyVal → Bool
  | .dictv kvs => kvs.any (fun kv => !validEntityIdB (pyLower kv.1))
  | _ => false

/-- The feature-name values supplied by a media-player record's raw feature
list. -/
def suppliedFeatureValues (ckvs : PyDict) : List PyVal :=
  (rawFeatureList ckvs).filterMap (fun f =>
    match f with
    | .dictv pk => List.lookup CONF_FEATURE pk
    | _ => Option.none)

/-- A supplied value whose string form lies outside the enumeration. -/
def outsideEnumB (names : List String) (x : PyVal) : Bool :=
  match coerceStr x with
  | some s => !names.contains s
  | Option.none => false

/-- Condition 4 of C1: an unknown enum value is supplied — a media-player
feature name or a switch sub-type outside the fixed enumerations. -/
def someUnknownEnumValue : PyVal → Bool
  | .dictv kvs => kvs.any (fun kv =>
      match kv.2 with
      | .dictv ckvs =>
          ((split_entity_id_domain (pyLower kv.1) == "media_player") &&
            (suppliedFeatureValues ckvs).any (outsideEnumB mediaFeatureNames)) ||
          ((split_entity_id_domain (pyLower kv.1) == "switch") &&
            (match List.lookup CONF_TYPE ckvs with
             | some x => outsideEnumB switchTypes x
             | Option.none => false))
      | _ => false)
  | _ => false

/-- Condition 5 of C1: a feature is repeated for the same entity. -/
def someFeatureRepeated : PyVal → Bool
  | .dictv kvs => kvs.any (fun kv =>
      match kv.2 with
      | .dictv ckvs => (featureNamesOf (rawFeatureList ckvs)).any
          (fun s => decide (2 ≤ (featureNamesOf (rawFeatureList ckvs)).count s))
      | _ => false)
  | _ => false

/-! ### Claim theorems: the configuration validator -/

/-- The counterexample input for C1: a single entity of an ordinary domain
whose record carries one unrecognized configuration key. -/
def c1Input : PyVal := .dictv [("demo.x", .dictv [("unexpected", .int 1)])]

/-- C1, counterexample: this input is free of all five failure conditions
the claim enumerates — the top level is a mapping, the record is a mapping,
the identifier is well-formed, no enum value and no feature list appears —
yet `validate_entity_config` raises a validation error (because of the
unrecognized configuration key), so the claimed "exactly when" is false. -/
theorem c1_counterexample_extra_key :
    topLevelNotMapping c1Input = false ∧
      someRecordNotMapping c1Input = false ∧
      someEntityIdMalformed c1Input = false ∧
      someUnknownEnumValue c1Input = false ∧
      someFeatureRepeated c1Input = false ∧
      isOkE (validate_entity_config c1Input) = false := by
  decide

/-- C1, amended: `validate_entity_config` returns a validated mapping
exactly on the problem-free inputs described by `goodConfigInput` — a
mapping of well-formed identifiers to mapping records whose every field is
a recognized field of the entity's domain with a value accepted by that
field's validator, and, for media players, whose feature entries are legal
with no feature name repeated; on every other input it raises. -/
theorem c1_validate_entity_config_ok_iff (v : PyVal) :
    (∃ w, validate_entity_config v = Except.ok w) ↔ goodConfigInput v := by
  rw [← isOkE_iff]
  exact validate_ok_iff_good v

/-- C3: whenever a media-player entity's record lists the same feature name
more than once, `validate_entity_config` raises and never returns
normally. -/
theorem c3_duplicate_feature_raises (kvs : List (String × PyVal)) (eid : String)
    (ckvs : PyDict) (hmem : (eid, PyVal.dictv ckvs) ∈ kvs)
    (hdom : split_entity_id_domain (pyLower eid) = "media_player")
    (hdup : ∃ k, 2 ≤ (featureNamesOf (rawFeatureList ckvs)).count k) :
    isOkE (validate_entity_config (.dictv kvs)) = false := by
  cases hok : isOkE (validate_entity_config (.dictv kvs)) with
  | false => rfl
  | true =>
      exfalso
      obtain ⟨kvs', hk, hall⟩ := (validate_ok_iff_good _).mp hok
      injection hk with hk'
      subst hk'
      obtain ⟨-, ckvs', hc, hdc⟩ := hall _ hmem
      have hc2 : PyVal.dictv ckvs = PyVal.dictv ckvs' := hc
      injection hc2 with hc3
      subst hc3
      have hdc2 : goodDomainCfg (split_entity_id_domain (pyLower eid)) ckvs := hdc
      rw [hdom] at hdc2
      unfold goodDomainCfg at hdc2
      rw [if_neg (by decide), if_pos rfl] at hdc2
      obtain ⟨-, -, hnd⟩ := hdc2
      obtain ⟨k, hk2⟩ := hdup
      have hle := List.nodup_iff_count_le_one.mp hnd k
      omega

/-- The duplicated-feature record used by C3's witness. -/
def c3Entity : PyDict :=
  [(CONF_FEATURE_LIST, .listv [.dictv [(CONF_FEATURE, .str FEATURE_ON_OFF)],
    .dictv [(CONF_FEATURE, .str FEATURE_ON_OFF)]])]

theorem c3_duplicate_feature_raises_witness :
    isOkE (validate_entity_config
      (.dictv [("media_player.tv", .dictv c3Entity)])) = false :=
  c3_duplicate_feature_raises _ "media_player.tv" c3Entity (by simp)
    (by decide) ⟨FEATURE_ON_OFF, by decide⟩

/-- C7: on a validated entity, defaults are filled in — a missing security
code of an alarm/lock entity comes back as the null value, a missing switch
sub-type comes back as the generic switch type, and a missing display name
stays missing in the normalized record. -/
theorem c7_normalized_defaults (eid : String) (ckvs : PyDict) (w : PyVal)
    (h : validate_entity_config (.dictv [(eid, .dictv ckvs)]) = .ok w) :
    ∃ out, w = .dictv [(pyLower eid, .dictv out)] ∧
      ((split_entity_id_domain (pyLower eid) = "alarm_control_panel" ∨
          split_entity_id_domain (pyLower eid) = "lock") →
        List.lookup ATTR_CODE ckvs = Option.none →
        List.lookup ATTR_CODE out = some PyVal.none) ∧
      (split_entity_id_domain (pyLower eid) = "switch" →
        List.lookup CONF_TYPE ckvs = Option.none →
        List.lookup CONF_TYPE out = some (.str TYPE_SWITCH)) ∧
      (List.lookup CONF_NAME ckvs = Option.none →
        List.lookup CONF_NAME out = Option.none) := by
  obtain ⟨cfg', hpe, hw⟩ := validate_singleton_shape h
  obtain ⟨-, hvd⟩ := processEntry_ok_shape hpe
  obtain ⟨out, ho⟩ := validateDomainConfig_dict_out hvd
  subst ho
  refine ⟨out, hw, ?_, ?_, ?_⟩
  · intro hdom hcode
    rw [codeDomain_schema hdom] at hvd
    exact CODE_SCHEMA_code_default hvd hcode
  · intro hdom htype
    rw [switchDomain_schema hdom] at hvd
    exact SWITCH_SCHEMA_type_default hvd htype
  · intro hname
    obtain ⟨out', ho', hl⟩ := domain_name_omitted hvd hname
    injection ho' with ho''
    subst ho''
    exact hl

theorem c7_normalized_defaults_witness :
    ∃ out, (PyVal.dictv [(pyLower "lock.door", PyVal.dictv [(ATTR_CODE, PyVal.none)])]
        : PyVal) = .dictv [(pyLower "lock.door", .dictv out)] ∧
      ((split_entity_id_domain (pyLower "lock.door") = "alarm_control_panel" ∨
          split_entity_id_domain (pyLower "lock.door") = "lock") →
        List.lookup ATTR_CODE ([] : PyDict) = Option.none →
        List.lookup ATTR_CODE out = some PyVal.none) ∧
      (split_entity_id_domain (pyLower "lock.door") = "switch" →
        List.lookup CONF_TYPE ([] : PyDict) = Option.none →
        List.lookup CONF_TYPE out = some (.str TYPE_SWITCH)) ∧
      (List.lookup CONF_NAME ([] : PyDict) = Option.none →
        List.lookup CONF_NAME out = Option.none) :=
  c7_normalized_defaults "lock.door" [] _ rfl

/-- The input on which C9 is settled: a media-player entity whose otherwise
valid record omits the feature list entirely. -/
def c9Input : PyVal := .dictv [("media_player.tv", .dictv [])]

/-- C9, counterexample: on a media-player record omitting the feature list,
`validate_entity_config` neither fails with a type error nor raises a
validation error — it returns the normalized record, with the feature list
normalized to an empty mapping (the null default is coerced to the empty
list before the feature loop runs), refuting the claimed type-error
failure. -/
theorem c9_counterexample_returns_normally :
    validate_entity_config c9Input =
      .ok (.dictv [("media_player.tv",
        .dictv [(CONF_FEATURE_LIST, .dictv [])])]) := by
  rfl

/-- C9, amended: for a media-player entity whose record omits the feature
list, `validate_entity_config` does not fail: whenever it returns, the
normalized record maps the feature-list field to the empty mapping, the
null default having been coerced to an empty list. -/
theorem c9_missing_feature_list_normalizes (eid : String) (ckvs : PyDict)
    (w : PyVal) (hdom : split_entity_id_domain (pyLower eid) = "media_player")
    (hfl : List.lookup CONF_FEATURE_LIST ckvs = Option.none)
    (h : validate_entity_config (.dictv [(eid, .dictv ckvs)]) = .ok w) :
    ∃ out, w = .dictv [(pyLower eid, .dictv out)] ∧
      List.lookup CONF_FEATURE_LIST out = some (.dictv []) := by
  obtain ⟨cfg', hpe, hw⟩ := validate_singleton_shape h
  obtain ⟨-, hvd⟩ := processEntry_ok_shape hpe
  rw [hdom] at hvd
  obtain ⟨out0, fl, hfs, hpf, hc⟩ := mediaDomain_ok_shape hvd
  have hraw : rawFeatureList ckvs = [] := by
    unfold rawFeatureList lookupOrNone
    rw [hfl]
    rfl
  rw [hraw] at hpf
  unfold processFeatures at hpf
  injection hpf with hpf'
  subst hpf'
  subst hc
  exact ⟨dictSet out0 CONF_FEATURE_LIST (.dictv []), hw,
    lookup_dictSet_self out0 CONF_FEATURE_LIST (.dictv [])⟩

theorem c9_missing_feature_list_witness :
    ∃ out, (PyVal.dictv [(pyLower "media_player.tv",
        PyVal.dictv [(CONF_FEATURE_LIST, PyVal.dictv [])])] : PyVal) =
      .dictv [(pyLower "media_player.tv", .dictv out)] ∧
      List.lookup CONF_FEATURE_LIST out = some (.dictv []) :=
  c9_missing_feature_list_normalizes "media_player.tv" [] _ (by decide) rfl rfl

/-! ### `validate_media_player_features` -/

/-- An entity state as the feature check reads it: its identifier and the
supported-features attribute of its reported attributes.  The spec's data
model fixes the capability bitmask to an opaque integer; a state whose
attributes do not carry it is modelled by `Option.none`. -/
structure HAState where
  entity_id : String
  supported_features : Option ℕ

/-- `state.attributes.get(ATTR_SUPPORTED_FEATURES, 0)`. -/
def stateFeatures (s : HAState) : ℕ := s.supported_features.getD 0

/-- The `supported_modes` list of the source: each fixed pair of capability
bits is tested with a bitwise OR against the bitmask (a non-zero AND is
Python truthiness). -/
def supportedModes (features : ℕ) : List String :=
  (if features &&& (SUPPORT_TURN_ON ||| SUPPORT_TURN_OFF) ≠ 0
    then [FEATURE_ON_OFF] else []) ++
  (if features &&& (SUPPORT_PLAY ||| SUPPORT_PAUSE) ≠ 0
    then [FEATURE_PLAY_PAUSE] else []) ++
  (if features &&& (SUPPORT_PLAY ||| SUPPORT_STOP) ≠ 0
    then [FEATURE_PLAY_STOP] else []) ++
  (if features &&& SUPPORT_VOLUME_MUTE ≠ 0
    then [FEATURE_TOGGLE_MUTE] else [])

/-- The `error_list` the source logs: the requested features not among the
supported modes, in request order. -/
def unsupportedFeatures (state : HAState) (feature_list : List String) :
    List String :=
  feature_list.filter
    (fun f => !(supportedModes (stateFeatures state)).contains f)

/-- `validate_media_player_features`: false (after logging the unsupported
subset) when some requested feature is unsupported, else true. -/
def validate_media_player_features (state : HAState)
    (feature_list : List String) : Bool :=
  (unsupportedFeatures state feature_list).isEmpty

/-- C2: the check returns true exactly when every requested feature is in
the supported set derived from the state's capability bitmask by the fixed
pair tests; in particular, with only the turn-on/turn-off bits set, a
play/pause request fails and an on/off request passes. -/
theorem c2_feature_check_iff :
    (∀ (s : HAState) (fl : List String),
      validate_media_player_features s fl = true ↔
        ∀ f ∈ fl, f ∈ supportedModes (stateFeatures s)) ∧
      validate_media_player_features
        ⟨"media_player.tv", some (SUPPORT_TURN_ON ||| SUPPORT_TURN_OFF)⟩
        [FEATURE_PLAY_PAUSE] = false ∧
      validate_media_player_features
        ⟨"media_player.tv", some (SUPPORT_TURN_ON ||| SUPPORT_TURN_OFF)⟩
        [FEATURE_ON_OFF] = true := by
  refine ⟨fun s fl => ?_, by decide, by decide⟩
  unfold validate_media_player_features unsupportedFeatures
  rw [List.isEmpty_iff, List.filter_eq_nil_iff]
  constructor
  · intro h f hf
    have := h f hf
    simpa using this
  · intro h f hf
    simpa using h f hf

/-- C8: the feature check is a total boolean function — it returns false
exactly when the logged unsupported subset is non-empty, and a state whose
attributes carry no capability bitmask behaves exactly as the zero
bitmask. -/
theorem c8_feature_check_total (s : HAState) (fl : List String) :
    (validate_media_player_features s fl = false ↔
      unsupportedFeatures s fl ≠ []) ∧
    (s.supported_features = Option.none →
      validate_media_player_features s fl =
        validate_media_player_features ⟨s.entity_id, some 0⟩ fl) := by
  constructor
  · unfold validate_media_player_features
    rw [show (unsupportedFeatures s fl).isEmpty = false ↔
        ¬ (unsupportedFeatures s fl).isEmpty = true by simp]
    rw [List.isEmpty_iff]
  · intro hnone
    unfold validate_media_player_features unsupportedFeatures stateFeatures
    rw [hnone]
    rfl

theorem c8_feature_check_total_witness :
    (validate_media_player_features ⟨"media_player.tv", Option.none⟩
        [FEATURE_ON_OFF] = false ↔
      unsupportedFeatures ⟨"media_player.tv", Option.none⟩
        [FEATURE_ON_OFF] ≠ []) ∧
    ((⟨"media_player.tv", Option.none⟩ : HAState).supported_features =
        Option.none →
      validate_media_player_features ⟨"media_player.tv", Option.none⟩
          [FEATURE_ON_OFF] =
        validate_media_player_features ⟨"media_player.tv", some 0⟩
          [FEATURE_ON_OFF]) :=
  c8_feature_check_total ⟨"media_player.tv", Option.none⟩ [FEATURE_ON_OFF]

/-- C10: with only the play bit set (neither pause nor stop), the OR-based
pair tests mark both play/pause and play/stop as supported, so requesting
either returns true. -/
theorem c10_play_bit_enables_both_pairs :
    SUPPORT_PLAY &&& (SUPPORT_PAUSE ||| SUPPORT_STOP) = 0 ∧
      FEATURE_PLAY_PAUSE ∈ supportedModes SUPPORT_PLAY ∧
      FEATURE_PLAY_STOP ∈ supportedModes SUPPORT_PLAY ∧
      validate_media_player_features ⟨"media_player.x", some SUPPORT_PLAY⟩
        [FEATURE_PLAY_PAUSE] = true ∧
      validate_media_player_features ⟨"media_player.x", some SUPPORT_PLAY⟩
        [FEATURE_PLAY_STOP] = true := by
  decide

/-! ### `convert_to_float` -/

/-- A Python value as the numeric helper receives it: an entity state value
is null, a boolean, a number, a string, or some other object. -/
inductive StateVal where
  | none
  | bool (b : Bool)
  | num (q : ℚ)
  | str (s : String)
  | obj

/-- The numeric value of a run of decimal digits. -/
def digitsVal (cs : List Char) : ℕ :=
  cs.foldl (fun a c => 10 * a + (c.toNat - Char.toNat '0')) 0

/-- Strip surrounding whitespace, as Python's float conversion does. -/
def trimWS (cs : List Char) : List Char :=
  ((cs.dropWhile Char.isWhitespace).reverse.dropWhile Char.isWhitespace).reverse

/-- Parse what may follow the mantissa: nothing, or `e`/`E` with an
optionally signed digit run. -/
def parseExpPart : List Char → Option ℤ
  | [] => some 0
  | c :: rest =>
      if c = 'e' ∨ c = 'E' then
        match rest with
        | '+' :: ds =>
            if !ds.isEmpty && ds.all Char.isDigit then some ((digitsVal ds : ℤ))
            else Option.none
        | '-' :: ds =>
            if !ds.isEmpty && ds.all Char.isDigit then some (-(digitsVal ds : ℤ))
            else Option.none
        | ds =>
            if !ds.isEmpty && ds.all Char.isDigit then some ((digitsVal ds : ℤ))
            else Option.none
      else Option.none

/-- Parse the mantissa: a digit run with an optional decimal point and at
least one digit in all; the integer part's value, the fraction digits'
value and their count, and the remaining characters. -/
def parseMantissa (cs : List Char) : Option (ℕ × ℕ × ℕ × List Char) :=
  let ip := cs.takeWhile Char.isDigit
  let r1 := cs.dropWhile Char.isDigit
  match r1 with
  | '.' :: r2 =>
      let fp := r2.takeWhile Char.isDigit
      let r3 := r2.dropWhile Char.isDigit
      if ip.isEmpty && fp.isEmpty then Option.none
      else some (digitsVal ip, digitsVal fp, fp.length, r3)
  | _ =>
      if ip.isEmpty then Option.none
      else some (digitsVal ip, 0, 0, r1)

/-- The discrete part of the float-literal parse: whether a minus sign was
given, the integer part, the fraction digits' value and count, and the
exponent. -/
def parseParts (s : String) : Option (Bool × ℕ × ℕ × ℕ × ℤ) :=
  let cs := trimWS s.data
  let signed : Bool × List Char :=
    match cs with
    | '+' :: rest => (false, rest)
    | '-' :: rest => (true, rest)
    | rest => (false, rest)
  match parseMantissa signed.2 with
  | some mr =>
      match parseExpPart mr.2.2.2 with
      | some e => some (signed.1, mr.1, mr.2.1, mr.2.2.1, e)
      | Option.none => Option.none
  | Option.none => Option.none

/-- The rational value a parsed literal denotes. -/
def partsVal (p : Bool × ℕ × ℕ × ℕ × ℤ) : ℚ :=
  (if p.1 then -1 else 1) *
    ((p.2.1 : ℚ) + (p.2.2.1 : ℚ) / (10 : ℚ) ^ p.2.2.2.1) *
    (10 : ℚ) ^ p.2.2.2.2

/-- Modelled from the spec: Python's built-in float conversion of a string
(a finite decimal literal): surrounding whitespace is ignored, then an
optional sign, a digit run with an optional decimal point, and an optional
exponent; anything else fails.  The special spellings `inf`, `infinity`,
`nan` and digit-group underscores lie outside the model. -/
def parsePyFloat (s : String) : Option ℚ :=
  (parseParts s).map partsVal

/-- Modelled from the spec: Python's built-in `float`: numbers and booleans
convert, strings parse as float literals or fail with `ValueError`, and
null or other objects fail with `TypeError`. -/
def pyFloat : StateVal → Except PErr ℚ
  | .num q => .ok q
  | .bool b => .ok (if b then 1 else 0)
  | .str s =>
      match parsePyFloat s with
      | some q => .ok q
      | Option.none => .error (.valueError "could not convert string to float")
  | .none => .error (.typeError "float argument must be a string or a number")
  | .obj => .error (.typeError "float argument must be a string or a number")

/-- `convert_to_float` of the source: `float(state)` with `ValueError` and
`TypeError` caught, the caught case yielding the null result. -/
def convert_to_float (state : StateVal) : Option ℚ :=
  match pyFloat state with
  | .ok q => some q
  | .error _ => Option.none

/-- C6: `convert_to_float` never propagates an exception — it returns
exactly the successful result of the float conversion and the null result
whenever that conversion raises; in particular `"12.5"` parses to `12.5`,
`"abc"` gives the null result, and null input gives the null result. -/
theorem c6_convert_to_float_total :
    (∀ v : StateVal, convert_to_float v = (pyFloat v).toOption) ∧
      convert_to_float (.str "12.5") = some ((25 : ℚ) / 2) ∧
      convert_to_float (.str "abc") = Option.none ∧
      convert_to_float .none = Option.none := by
  refine ⟨fun v => ?_, ?_, rfl, rfl⟩
  · unfold convert_to_float
    cases pyFloat v <;> rfl
  · have hp : parseParts "12.5" = some (false, 12, 5, 1, 0) := by decide
    have hv : convert_to_float (.str "12.5") =
        some (partsVal (false, 12, 5, 1, 0)) := by
      simp only [convert_to_float, pyFloat, parsePyFloat, hp, Option.map_some']
    rw [hv]
    norm_num [partsVal]

/-! ### Temperature conversion -/

/-- A temperature unit the conversion utility accepts. -/
inductive TUnit where
  | celsius
  | fahrenheit
deriving DecidableEq

/-- Modelled from the spec: the unit-conversion utility
(`homeassistant.util.temperature.convert`): identical units pass the value
through, otherwise the standard Celsius/Fahrenheit formulas convert. -/
def temp_convert (t : ℚ) (fromU toU : TUnit) : ℚ :=
  if fromU = toU then t
  else
    match toU with
    | .celsius => (t - 32) / (9 / 5)
    | .fahrenheit => t * (9 / 5) + 32

/-- Python `round` on an exact rational: to the nearest integer, with halves
going to the even integer. -/
def pyRound (q : ℚ) : ℤ :=
  let f := ⌊q⌋
  let r := q - (f : ℚ)
  if r < 1 / 2 then f
  else if 1 / 2 < r then f + 1
  else if f % 2 = 0 then f else f + 1

/-- `temperature_to_homekit`: convert to Celsius, round to the nearest
half. -/
def temperature_to_homekit (temperature : ℚ) (unit : TUnit) : ℚ :=
  (pyRound (temp_convert temperature unit .celsius * 2) : ℚ) / 2

/-- `temperature_to_states`: convert back from Celsius, round to the
nearest half. -/
def temperature_to_states (temperature : ℚ) (unit : TUnit) : ℚ :=
  (pyRound (temp_convert temperature .celsius unit * 2) : ℚ) / 2

theorem pyRound_close (q : ℚ) : |(pyRound q : ℚ) - q| ≤ 1 / 2 := by
  simp only [pyRound]
  have h0 : (⌊q⌋ : ℚ) ≤ q := Int.floor_le q
  have h1 : q < (⌊q⌋ : ℚ) + 1 := Int.lt_floor_add_one q
  by_cases hr : q - (⌊q⌋ : ℚ) < 1 / 2
  · rw [if_pos hr, abs_le]
    constructor <;> linarith
  · rw [if_neg hr]
    by_cases hr2 : 1 / 2 < q - (⌊q⌋ : ℚ)
    · rw [if_pos hr2, abs_le]
      push_cast
      constructor <;> linarith
    · rw [if_neg hr2]
      by_cases he : ⌊q⌋ % 2 = 0
      · rw [if_pos he, abs_le]
        constructor <;> linarith
      · rw [if_neg he, abs_le]
        push_cast
        constructor <;> linarith

theorem pyRound_intCast (k : ℤ) : pyRound (k : ℚ) = k := by
  simp only [pyRound, Int.floor_intCast]
  norm_num

/-- C4, counterexample: at 33.35 degrees Fahrenheit, converting to Celsius
(rounded to the nearest half degree) and back (again rounded) yields 34.0,
which differs from the original by 0.65 — more than the claimed 0.5. -/
theorem c4_roundtrip_exceeds_half :
    1 / 2 < |temperature_to_states
      (temperature_to_homekit ((667 : ℚ) / 20) .fahrenheit) .fahrenheit -
        (667 : ℚ) / 20| := by
  have h1 : temperature_to_homekit ((667 : ℚ) / 20) .fahrenheit = 1 := by
    unfold temperature_to_homekit temp_convert
    rw [if_neg (by decide)]
    rw [show ((667 : ℚ) / 20 - 32) / (9 / 5) * 2 = 3 / 2 by norm_num]
    rw [show pyRound ((3 : ℚ) / 2) = 2 by
      simp only [pyRound]
      rw [show ⌊(3 : ℚ) / 2⌋ = 1 by norm_num]
      norm_num]
    norm_num
  rw [h1]
  have h2 : temperature_to_states (1 : ℚ) .fahrenheit = 34 := by
    unfold temperature_to_states temp_convert
    rw [if_neg (by decide)]
    rw [show ((1 : ℚ) * (9 / 5) + 32) * 2 = 338 / 5 by norm_num]
    rw [show pyRound ((338 : ℚ) / 5) = 68 by
      simp only [pyRound]
      rw [show ⌊(338 : ℚ) / 5⌋ = 67 by norm_num]
      norm_num]
    norm_num
  rw [h2]
  rw [show (34 : ℚ) - 667 / 20 = 13 / 20 by norm_num]
  rw [abs_of_nonneg (by norm_num)]
  norm_num

/-- C4, amended: converting a temperature to Celsius with half-degree
rounding and back with half-unit rounding lands within 0.7 of the original
value for every unit (within 0.25 when the unit is Celsius; for Fahrenheit
the two roundings can compound to 0.25 + 1.8 times 0.25 = 0.7, and 0.65 is
attained at 33.35, so the claimed 0.5 bound is not available). -/
theorem c4_roundtrip_bound (t : ℚ) (u : TUnit) :
    |temperature_to_states (temperature_to_homekit t u) u - t| ≤ 7 / 10 := by
  cases u with
  | celsius =>
      unfold temperature_to_homekit temperature_to_states temp_convert
      simp only [eq_self_iff_true, if_true]
      rw [show (pyRound (t * 2) : ℚ) / 2 * 2 = ((pyRound (t * 2) : ℚ)) by ring]
      rw [pyRound_intCast]
      have hc := pyRound_close (t * 2)
      rw [abs_le] at hc ⊢
      constructor <;> linarith [hc.1, hc.2]
  | fahrenheit =>
      unfold temperature_to_homekit temperature_to_states temp_convert
      rw [if_neg (by decide), if_neg (by decide)]
      set c := (t - 32) / (9 / 5) with hc
      set h := (pyRound (c * 2) : ℚ) / 2 with hh
      have h1 := pyRound_close (c * 2)
      have h2 := pyRound_close ((h * (9 / 5) + 32) * 2)
      have ht : t = c * (9 / 5) + 32 := by
        rw [hc]
        field_simp
      rw [abs_le] at h1 h2 ⊢
      constructor <;> linarith [h1.1, h1.2, h2.1, h2.2]

/-! ### `density_to_air_quality` -/

/-- `density_to_air_quality` of the source: the fixed ascending threshold
table mapping a particulate density to a level 1 to 5. -/
def density_to_air_quality (density : ℚ) : ℕ :=
  if density ≤ 35 then 1
  else if density ≤ 75 then 2
  else if density ≤ 115 then 3
  else if density ≤ 150 then 4
  else 5

/-- C5: the level is exactly the one the ascending thresholds dictate — 1 up
to 35, 2 up to 75, 3 up to 115, 4 up to 150, 5 beyond — with the boundary
values 35, 36 and 151 landing on 1, 2 and 5. -/
theorem c5_density_to_air_quality_thresholds :
    (∀ d : ℚ,
      (d ≤ 35 → density_to_air_quality d = 1) ∧
      (35 < d → d ≤ 75 → density_to_air_quality d = 2) ∧
      (75 < d → d ≤ 115 → density_to_air_quality d = 3) ∧
      (115 < d → d ≤ 150 → density_to_air_quality d = 4) ∧
      (150 < d → density_to_air_quality d = 5)) ∧
      density_to_air_quality 35 = 1 ∧
      density_to_air_quality 36 = 2 ∧
      density_to_air_quality 151 = 5 := by
  refine ⟨fun d => ⟨?_, ?_, ?_, ?_, ?_⟩, ?_, ?_, ?_⟩
  · intro hd
    unfold density_to_air_quality
    rw [if_pos hd]
  · intro hd1 hd2
    unfold density_to_air_quality
    rw [if_neg (by linarith), if_pos hd2]
  · intro hd1 hd2
    unfold density_to_air_quality
    rw [if_neg (by linarith), if_neg (by linarith), if_pos hd2]
  · intro hd1 hd2
    unfold density_to_air_quality
    rw [if_neg (by linarith), if_neg (by linarith), if_neg (by linarith),
      if_pos hd2]
  · intro hd
    unfold density_to_air_quality
    rw [if_neg (by linarith), if_neg (by linarith), if_neg (by linarith),
      if_neg (by linarith)]
  · norm_num [density_to_air_quality]
  · norm_num [density_to_air_quality]
  · norm_num [density_to_air_quality]

end HomekitUtil
